import Mathlib

/-!
Shallow embedding of `util_reg_downloader/src/reg_downloader.c` (sx1302_hal).

The utility parses command-line options, loads a JSON register catalog
(`sx1302_reglist.json`, parsed with the vendored parson library), configures the
concentrator board and two RF chains through the HAL, resets/starts the board,
reads every catalogued register once, prints one detail line per successful
read plus a summary line, and finally stops the HAL session and disables the
board.

The HAL and the platform reset script are external collaborators; they are
modelled as a boolean/optional oracle (`Hal`).  JSON documents are modelled by
an inductive `JsonValue` with the relevant parson accessors (`NULL` pointers
become `Option.none`, and parson's documented defaults — 0 for a missing
number, NULL for a missing string — are reproduced).  C machine integers are
modelled as `Nat`/`Int` with explicit wrapping where the source converts.
-/

/-- A JSON value as produced by parson.  An object keeps its fields in
document order; parson's lookup returns the first field with a matching key. -/
inductive JsonValue where
  | jnull
  | jbool (b : Bool)
  | jnum (n : Int)
  | jstr (s : String)
  | jarr (elems : List JsonValue)
  | jobj (fields : List (String × JsonValue))

/-- parson `json_value_get_object`: NULL unless the value is an object. -/
def json_value_get_object : JsonValue → Option (List (String × JsonValue))
  | JsonValue.jobj fields => some fields
  | _ => none

/-- parson `json_object_get_value` on a possibly-NULL object pointer:
first field with the given key, NULL if the object is NULL or has no such key. -/
def json_object_get_value (obj : Option (List (String × JsonValue))) (key : String) :
    Option JsonValue :=
  match obj with
  | none => none
  | some fields => (fields.find? (fun kv => kv.fst == key)).map Prod.snd

/-- parson `json_object_get_number`: 0 when the field is missing or not a number. -/
def json_object_get_number (obj : Option (List (String × JsonValue))) (key : String) : Int :=
  match json_object_get_value obj key with
  | some (JsonValue.jnum n) => n
  | _ => 0

/-- parson `json_object_get_string`: NULL when the field is missing or not a string. -/
def json_object_get_string (obj : Option (List (String × JsonValue))) (key : String) :
    Option String :=
  match json_object_get_value obj key with
  | some (JsonValue.jstr s) => some s
  | _ => none

/-- parson `json_object_get_array`: NULL when the field is missing or not an array. -/
def json_object_get_array (obj : Option (List (String × JsonValue))) (key : String) :
    Option (List JsonValue) :=
  match json_object_get_value obj key with
  | some (JsonValue.jarr elems) => some elems
  | _ => none

/-- Catalog loading, lines 427-443 of reg_downloader.c.  The input is the
result of `json_parse_file_with_comments`: `none` when the file is absent,
unreadable, or not valid JSON (parson returns NULL in all three cases and the
program prints one combined diagnostic).  The program then fetches the
top-level `sx1302_reglist` array and fails if it is missing; the entries
themselves are not inspected at load time. -/
def loadCatalog (parsed : Option JsonValue) : Except String (List JsonValue) :=
  match parsed with
  | none => Except.error "ERROR: JSON registry file is corrupted"
  | some root =>
    match json_object_get_array (json_value_get_object root) "sx1302_reglist" with
    | none => Except.error "ERROR: JSON registry is not found"
    | some reglist => Except.ok reglist

/-- C cast `(uint16_t)index` applied to the catalog's `index` number (the cast
of an out-of-range double is undefined in C; it is modelled as mod 2^16, and no
claim depends on out-of-range indices). -/
def uint16_of_int (n : Int) : Nat := (n % 65536).toNat

/-- The register index passed to `lgw_reg_r`, line 532: the entry's `"index"`
field read with parson's defaulting accessor, cast to `uint16_t`. -/
def regIndex (reg : JsonValue) : Nat :=
  uint16_of_int (json_object_get_number (json_value_get_object reg) "index")

/-- One detail line of the readout, line 537: printf fields in source order
`name, value, address, offset, length`.  The strings are kept as options
because parson returns NULL for a missing field. -/
structure DetailLine where
  name : Option String
  value : Int
  address : Option String
  bit_offset : Int
  bit_length : Int
deriving DecidableEq

/-- The detail line built for a successfully read catalog entry (lines 523-537). -/
def mkDetail (reg : JsonValue) (value : Int) : DetailLine :=
  let obj := json_value_get_object reg
  { name := json_object_get_string obj "name"
    value := value
    address := json_object_get_string obj "address"
    bit_offset := json_object_get_number obj "offset"
    bit_length := json_object_get_number obj "length" }

/-- Result of the readout loop: the register indices passed to `lgw_reg_r` in
call order, the printed detail lines in print order, and the two counters `x`
(successes) and `i` (iterations) printed in the summary line 541. -/
structure PassResult where
  calls : List Nat
  lines : List DetailLine
  succeeded : Nat
  attempted : Nat
deriving DecidableEq

/-- The for-loop of lines 522-540, with the loop counters `i` and `x` made
explicit accumulators.  Every entry causes exactly one `lgw_reg_r` call; on
success (`reg_r` returns a value) one detail line is printed and `x`
incremented; on failure nothing is printed and the loop continues. -/
def readoutLoop (reg_r : Nat → Option Int) :
    List JsonValue → Nat → Nat → PassResult
  | [], i, x => { calls := [], lines := [], succeeded := x, attempted := i }
  | reg :: rest, i, x =>
    let idx := regIndex reg
    match reg_r idx with
    | some value =>
      let r := readoutLoop reg_r rest (i + 1) (x + 1)
      { r with calls := idx :: r.calls, lines := mkDetail reg value :: r.lines }
    | none =>
      let r := readoutLoop reg_r rest (i + 1) x
      { r with calls := idx :: r.calls }

/-- The readout pass as entered at line 522 (`i = 0, x = 0`). -/
def readoutPass (reg_r : Nat → Option Int) (reglist : List JsonValue) : PassResult :=
  readoutLoop reg_r reglist 0 0

/-- The summary line of line 541, `"%i/%i Registers read"` with `x` then `i`
(surrounding newlines elided). -/
def renderSummary (p : Nat × Nat) : String :=
  toString p.1 ++ "/" ++ toString p.2 ++ " Registers read"

/-- C `isspace` as used by sscanf conversions (space, tab, newline, vertical
tab, form feed, carriage return). -/
def cIsSpace (c : Char) : Bool :=
  c == ' ' || c == '\t' || c == '\n' || c == '\x0b' || c == '\x0c' || c == '\r'

/-- Value of a digit string, most significant digit first. -/
def digitsVal (ds : List Char) : Nat :=
  ds.foldl (fun acc c => acc * 10 + (c.toNat - 48)) 0

/-- `sscanf(s, "%u", &arg_u)`: skip leading whitespace, optional sign, then a
nonempty digit run (strtoul semantics: a leading minus negates modulo 2^32, a
trailing non-digit suffix is ignored).  `none` models a conversion failure
(`sscanf` returns 0 and does not write `arg_u`). -/
def parse_u (s : String) : Option Nat :=
  let cs := s.data.dropWhile cIsSpace
  let signed : Bool × List Char :=
    match cs with
    | '-' :: rest => (true, rest)
    | '+' :: rest => (false, rest)
    | _ => (false, cs)
  let ds := signed.2.takeWhile Char.isDigit
  if ds.isEmpty then none
  else
    let v := digitsVal ds % 4294967296
    some (if signed.1 then (4294967296 - v) % 4294967296 else v)

/-- `sscanf(s, "%d", &arg_i)`: like `parse_u` but signed and exact
(overflow of C `int` is not exercised by any claim and left unmodelled). -/
def parse_d (s : String) : Option Int :=
  let cs := s.data.dropWhile cIsSpace
  let signed : Bool × List Char :=
    match cs with
    | '-' :: rest => (true, rest)
    | '+' :: rest => (false, rest)
    | _ => (false, cs)
  let ds := signed.2.takeWhile Char.isDigit
  if ds.isEmpty then none
  else some (if signed.1 then -(digitsVal ds : Int) else (digitsVal ds : Int))

/-- `sscanf(s, "%s", arg_s)`: skip leading whitespace and take the first
whitespace-delimited token; fails only when no token exists. -/
def sscanf_token (s : String) : Option String :=
  let cs := s.data.dropWhile cIsSpace
  let tok := cs.takeWhile (fun c => !(cIsSpace c))
  if tok.isEmpty then none else some (String.mk tok)

/-- `sscanf(s, "%lf", ...)` / `"%f"`: optional sign, decimal digits with an
optional fractional part, read exactly as a rational (binary rounding of the C
double and exponent syntax are unmodelled; no claim depends on them). -/
def parse_lf (s : String) : Option Rat :=
  let cs := s.data.dropWhile cIsSpace
  let signed : Bool × List Char :=
    match cs with
    | '-' :: rest => (true, rest)
    | '+' :: rest => (false, rest)
    | _ => (false, cs)
  let ip := signed.2.takeWhile Char.isDigit
  let rest := signed.2.dropWhile Char.isDigit
  let fp : List Char :=
    match rest with
    | '.' :: r2 => r2.takeWhile Char.isDigit
    | _ => []
  let hasDot : Bool :=
    match rest with
    | '.' :: _ => true
    | _ => false
  if ip.isEmpty && (!hasDot || fp.isEmpty) then none
  else
    let mag : Rat := (digitsVal ip : Rat) + (digitsVal fp : Rat) / ((10 : Rat) ^ fp.length)
    some (if signed.1 then -mag else mag)

/-- C cast `(int8_t)` with wrap-around. -/
def int8_wrap (n : Int) : Int := ((n + 128) % 256) - 128

/-- C cast `(uint32_t)` of a nonnegative rational after truncation toward
zero, as in `ft = (uint32_t)((arg_d*1e6) + 0.5)` (line 297); a negative double
converted to unsigned is undefined in C and modelled as 0. -/
def c_trunc_toUInt32 (q : Rat) : Nat :=
  if q < 0 then 0 else q.floor.toNat % 4294967296

/-- `lgw_radio_type_t` of the HAL header. -/
inductive lgw_radio_type_t where
  | LGW_RADIO_TYPE_NONE
  | LGW_RADIO_TYPE_SX1255
  | LGW_RADIO_TYPE_SX1257
  | LGW_RADIO_TYPE_SX1250
deriving DecidableEq

/-- One entry of the TX gain LUT; only entry 0 is ever written by this
utility (fields as in `struct lgw_tx_gain_s`). -/
structure TxGain where
  rf_power : Int
  pa_gain : Nat
  dig_gain : Nat
  dac_gain : Nat
  mix_gain : Nat
  pwr_idx : Nat
deriving DecidableEq

/-- `struct lgw_tx_gain_lut_s` as used here: the size and entry 0 (the other
15 entries stay zeroed and are never referenced). -/
structure LgwTxGainLut where
  size : Nat
  lut0 : TxGain
deriving DecidableEq

/-- The local variables of `main` that the option parser writes (lines
116-170), plus the scratch conversion variables, threaded explicitly.
`arg_u`, `arg_i` and `arg_s` are uninitialized in the source (reading them
before a successful conversion is indeterminate there); the model starts them
at 0 / the empty string.  `use_json` is declared in the source, initialized to
false, and never assigned nor read afterwards. -/
structure CliState where
  use_json : Bool
  ft : Nat
  rf_power : Int
  sf : Nat
  bw_khz : Nat
  nb_pkt : Nat
  nb_loop : Nat
  size : Nat
  mod : String
  br_kbps : Rat
  fdev_khz : Nat
  freq_offset : Int
  arg_d : Rat
  arg_u : Nat
  arg_i : Int
  arg_s : String
  xf : Rat
  clocksource : Nat
  rf_chain : Nat
  radio_type : lgw_radio_type_t
  preamble : Nat
  invert_pol : Bool
  no_header : Bool
  single_input_mode : Bool
  format : String
  txlut : LgwTxGainLut
  trig_delay : Bool
  trig_delay_us : Nat
deriving DecidableEq

/-- The initializers of lines 118-170. -/
def initState : CliState :=
  { use_json := false
    ft := 915000000
    rf_power := 0
    sf := 0
    bw_khz := 0
    nb_pkt := 1
    nb_loop := 1
    size := 0
    mod := "LORA"
    br_kbps := 50
    fdev_khz := 25
    freq_offset := 0
    arg_d := 0
    arg_u := 0
    arg_i := 0
    arg_s := ""
    xf := 0
    clocksource := 0
    rf_chain := 0
    radio_type := lgw_radio_type_t.LGW_RADIO_TYPE_NONE
    preamble := 8
    invert_pol := false
    no_header := false
    single_input_mode := false
    format := "CSV"
    txlut := { size := 0
               lut0 := { rf_power := 0, pa_gain := 0, dig_gain := 0,
                         dac_gain := 0, mix_gain := 0, pwr_idx := 0 } }
    trig_delay := false
    trig_delay_us := 1000000 }

/-- One option event as delivered by `getopt_long` (lines 187, 174-184):
the short options of the optstring, the long options of `long_options`, and
`unknown` for an unrecognized option or missing argument (getopt's error
return, handled by the `default` branch). -/
inductive Opt where
  | h
  | i
  | j
  | r (arg : String)
  | l (arg : String)
  | m (arg : String)
  | o (arg : String)
  | d (arg : String)
  | q (arg : String)
  | t (arg : String)
  | k (arg : String)
  | c (arg : String)
  | f (arg : String)
  | s (arg : String)
  | b (arg : String)
  | n (arg : String)
  | p (arg : String)
  | z (arg : String)
  | pa (arg : String)
  | dac (arg : String)
  | dig (arg : String)
  | mix (arg : String)
  | pwid (arg : String)
  | loop (arg : String)
  | nhdr
  | format (arg : String)
  | unknown
deriving DecidableEq

/-- An early `return` from the option-parsing loop: the printed message and
the returned process status (`EXIT_FAILURE` = 1 for a rejected value, -1 for
`-h` and for getopt errors); every such status is nonzero. -/
structure ParseErr where
  msg : String
  code : Int
deriving DecidableEq

/-- One iteration of the switch statement of lines 188-423, faithful branch by
branch.  Note the `-o` branch (lines 236-243): unlike every other numeric
option it never tests the `sscanf` return value, so a failed conversion leaves
`arg_i` at its previous value and only that stale value's range is checked. -/
def applyOpt (st : CliState) : Opt → Except ParseErr CliState
  | Opt.h => Except.error { msg := "usage", code := -1 }
  | Opt.i => Except.ok { st with invert_pol := true }
  | Opt.j => Except.ok { st with single_input_mode := true }
  | Opt.r arg =>
    match parse_u arg with
    | none =>
      Except.error { msg := "ERROR: argument parsing of -r argument. Use -h to print help", code := 1 }
    | some u =>
      if u != 1255 && u != 1257 && u != 1250 then
        Except.error { msg := "ERROR: argument parsing of -r argument. Use -h to print help", code := 1 }
      else
        Except.ok { st with arg_u := u, radio_type :=
                              if u = 1255 then lgw_radio_type_t.LGW_RADIO_TYPE_SX1255
                              else if u = 1257 then lgw_radio_type_t.LGW_RADIO_TYPE_SX1257
                              else lgw_radio_type_t.LGW_RADIO_TYPE_SX1250 }
  | Opt.l arg =>
    match parse_u arg with
    | none =>
      Except.error { msg := "ERROR: argument parsing of -l argument. Use -h to print help", code := 1 }
    | some u =>
      if u > 65535 then
        Except.error { msg := "ERROR: argument parsing of -l argument. Use -h to print help", code := 1 }
      else Except.ok { st with arg_u := u, preamble := u }
  | Opt.m arg =>
    match sscanf_token arg with
    | none => Except.error { msg := "ERROR: invalid modulation type", code := 1 }
    | some tok =>
      if tok != "CW" && tok != "LORA" && tok != "FSK" then
        Except.error { msg := "ERROR: invalid modulation type", code := 1 }
      else Except.ok { st with arg_s := tok, mod := tok }
  | Opt.o arg =>
    let v := (parse_d arg).getD st.arg_i
    if v < -65 || v > 65 then
      Except.error { msg := "ERROR: invalid frequency offset", code := 1 }
    else Except.ok { st with arg_i := v, freq_offset := v }
  | Opt.d arg =>
    match parse_u arg with
    | none => Except.error { msg := "ERROR: invalid FSK frequency deviation", code := 1 }
    | some u =>
      if u < 1 || u > 250 then
        Except.error { msg := "ERROR: invalid FSK frequency deviation", code := 1 }
      else Except.ok { st with arg_u := u, fdev_khz := u % 256 }
  | Opt.q arg =>
    match parse_lf arg with
    | none => Except.error { msg := "ERROR: invalid FSK bitrate", code := 1 }
    | some v =>
      if v < (1 : Rat) / 2 || v > 250 then
        Except.error { msg := "ERROR: invalid FSK bitrate", code := 1 }
      else Except.ok { st with xf := v, br_kbps := v }
  | Opt.t arg =>
    match parse_u arg with
    | none =>
      Except.error { msg := "ERROR: argument parsing of -t argument. Use -h to print help", code := 1 }
    | some u =>
      Except.ok { st with arg_u := u, trig_delay := true,
                          trig_delay_us := (u * 1000) % 4294967296 }
  | Opt.k arg =>
    match parse_u arg with
    | none =>
      Except.error { msg := "ERROR: argument parsing of -k argument. Use -h to print help", code := 1 }
    | some u =>
      if u > 1 then
        Except.error { msg := "ERROR: argument parsing of -k argument. Use -h to print help", code := 1 }
      else Except.ok { st with arg_u := u, clocksource := u }
  | Opt.c arg =>
    match parse_u arg with
    | none =>
      Except.error { msg := "ERROR: argument parsing of -c argument. Use -h to print help", code := 1 }
    | some u =>
      if u > 1 then
        Except.error { msg := "ERROR: argument parsing of -c argument. Use -h to print help", code := 1 }
      else Except.ok { st with arg_u := u, rf_chain := u }
  | Opt.f arg =>
    match parse_lf arg with
    | none =>
      Except.error { msg := "ERROR: argument parsing of -f argument. Use -h to print help", code := 1 }
    | some v =>
      Except.ok { st with arg_d := v,
                          ft := c_trunc_toUInt32 (v * 1000000 + (1 : Rat) / 2) }
  | Opt.s arg =>
    match parse_u arg with
    | none =>
      Except.error { msg := "ERROR: argument parsing of -s argument. Use -h to print help", code := 1 }
    | some u =>
      if u < 5 || u > 12 then
        Except.error { msg := "ERROR: argument parsing of -s argument. Use -h to print help", code := 1 }
      else Except.ok { st with arg_u := u, sf := u }
  | Opt.b arg =>
    match parse_u arg with
    | none =>
      Except.error { msg := "ERROR: argument parsing of -b argument. Use -h to print help", code := 1 }
    | some u =>
      if u != 125 && u != 250 && u != 500 then
        Except.error { msg := "ERROR: argument parsing of -b argument. Use -h to print help", code := 1 }
      else Except.ok { st with arg_u := u, bw_khz := u }
  | Opt.n arg =>
    match parse_u arg with
    | none =>
      Except.error { msg := "ERROR: argument parsing of -n argument. Use -h to print help", code := 1 }
    | some u => Except.ok { st with arg_u := u, nb_pkt := u }
  | Opt.p arg =>
    match parse_d arg with
    | none =>
      Except.error { msg := "ERROR: argument parsing of -p argument. Use -h to print help", code := 1 }
    | some v =>
      Except.ok { st with arg_i := v, rf_power := int8_wrap v,
                          txlut := { st.txlut with
                                     size := 1, lut0 := { st.txlut.lut0 with rf_power := int8_wrap v } } }
  | Opt.z arg =>
    match parse_u arg with
    | none =>
      Except.error { msg := "ERROR: argument parsing of -z argument. Use -h to print help", code := 1 }
    | some u =>
      if u < 9 || u > 255 then
        Except.error { msg := "ERROR: argument parsing of -z argument. Use -h to print help", code := 1 }
      else Except.ok { st with arg_u := u, size := u }
  | Opt.pa arg =>
    match parse_u arg with
    | none =>
      Except.error { msg := "ERROR: argument parsing of --pa argument. Use -h to print help", code := 1 }
    | some u =>
      if u > 3 then
        Except.error { msg := "ERROR: argument parsing of --pa argument. Use -h to print help", code := 1 }
      else
        Except.ok { st with arg_u := u,
                            txlut := { st.txlut with size := 1, lut0 := { st.txlut.lut0 with pa_gain := u } } }
  | Opt.dac arg =>
    match parse_u arg with
    | none =>
      Except.error { msg := "ERROR: argument parsing of --dac argument. Use -h to print help", code := 1 }
    | some u =>
      if u > 3 then
        Except.error { msg := "ERROR: argument parsing of --dac argument. Use -h to print help", code := 1 }
      else
        Except.ok { st with arg_u := u,
                            txlut := { st.txlut with size := 1, lut0 := { st.txlut.lut0 with dac_gain := u } } }
  | Opt.dig arg =>
    match parse_u arg with
    | none =>
      Except.error { msg := "ERROR: argument parsing of --dig argument. Use -h to print help", code := 1 }
    | some u =>
      if u > 3 then
        Except.error { msg := "ERROR: argument parsing of --dig argument. Use -h to print help", code := 1 }
      else
        Except.ok { st with arg_u := u,
                            txlut := { st.txlut with size := 1, lut0 := { st.txlut.lut0 with dig_gain := u } } }
  | Opt.mix arg =>
    match parse_u arg with
    | none =>
      Except.error { msg := "ERROR: argument parsing of --mix argument. Use -h to print help", code := 1 }
    | some u =>
      if u > 15 then
        Except.error { msg := "ERROR: argument parsing of --mix argument. Use -h to print help", code := 1 }
      else
        Except.ok { st with arg_u := u,
                            txlut := { st.txlut with size := 1, lut0 := { st.txlut.lut0 with mix_gain := u } } }
  | Opt.pwid arg =>
    match parse_u arg with
    | none =>
      Except.error { msg := "ERROR: argument parsing of --pwid argument. Use -h to print help", code := 1 }
    | some u =>
      if u > 22 then
        Except.error { msg := "ERROR: argument parsing of --pwid argument. Use -h to print help", code := 1 }
      else
        Except.ok { st with arg_u := u,
                            txlut := { st.txlut with size := 1, lut0 := { st.txlut.lut0 with mix_gain := 5, pwr_idx := u } } }
  | Opt.loop arg =>
    match parse_u arg with
    | none =>
      Except.error { msg := "ERROR: argument parsing of --loop argument. Use -h to print help", code := 1 }
    | some u => Except.ok { st with arg_u := u, nb_loop := u }
  | Opt.nhdr => Except.ok { st with no_header := true }
  | Opt.format arg =>
    match sscanf_token arg with
    | none => Except.error { msg := "ERROR: invalid format type (must be CSV or JSON)", code := 1 }
    | some tok =>
      if tok != "CSV" && tok != "JSON" then
        Except.error { msg := "ERROR: invalid format type (must be CSV or JSON)", code := 1 }
      else Except.ok { st with arg_s := tok, format := tok }
  | Opt.unknown => Except.error { msg := "ERROR: argument parsing", code := -1 }

/-- The while loop of line 187: options applied left to right, stopping at the
first early return. -/
def parseLoop : CliState → List Opt → Except ParseErr CliState
  | st, [] => Except.ok st
  | st, o :: rest =>
    match applyOpt st o with
    | Except.error e => Except.error e
    | Except.ok st2 => parseLoop st2 rest

/-- Command-line parsing of `main`, from the initial local-variable values. -/
def parseArgs (opts : List Opt) : Except ParseErr CliState :=
  parseLoop initState opts

/-- `struct lgw_conf_board_s` fields set at lines 465-470 (`spidev_path` is a
char array; this utility always writes the compiled-in default). -/
structure LgwConfBoard where
  lorawan_public : Bool
  clksrc : Nat
  full_duplex : Bool
  spidev_path : String
deriving DecidableEq

/-- `struct lgw_conf_rxrf_s` fields set by this utility. -/
structure LgwConfRxrf where
  enable : Bool
  freq_hz : Nat
  type : lgw_radio_type_t
  tx_enable : Bool
  single_input_mode : Bool
deriving DecidableEq

/-- The board configuration built at lines 465-470: `lorawan_public = true`,
`clksrc = clocksource`, `full_duplex = false`, and the default SPI device path
(no option of this utility changes `spidev_path`). -/
def mkBoardconf (st : CliState) : LgwConfBoard :=
  { lorawan_public := true
    clksrc := st.clocksource
    full_duplex := false
    spidev_path := "/dev/spidev0.0" }

/-- The RF-chain-0 configuration built at lines 476-481: always enabled and
TX-enabled. -/
def mkRxrf0 (st : CliState) : LgwConfRxrf :=
  { enable := true
    freq_hz := st.ft
    type := st.radio_type
    tx_enable := true
    single_input_mode := st.single_input_mode }

/-- The RF-chain-1 configuration built at lines 487-492: enabled exactly when
the TX chain selector or the clock source is 1, never TX-enabled. -/
def mkRxrf1 (st : CliState) : LgwConfRxrf :=
  { enable := (st.rf_chain == 1 || st.clocksource == 1)
    freq_hz := st.ft
    type := st.radio_type
    tx_enable := false
    single_input_mode := st.single_input_mode }

/-- The external collaborators as a deterministic oracle: each HAL entry point
and reset-script invocation reports success (`true`) or failure, and
`lgw_reg_r` on a register index either returns the read value or fails. -/
structure Hal where
  lgw_board_setconf : LgwConfBoard → Bool
  lgw_rxrf_setconf : Nat → LgwConfRxrf → Bool
  lgw_txgain_setconf : Nat → LgwTxGainLut → Bool
  reset_script_start : Bool
  lgw_start : Bool
  lgw_reg_r : Nat → Option Int
  lgw_stop : Bool
  reset_script_stop : Bool

/-- One externally visible call made by `main` after option parsing, in
program order. -/
inductive Event where
  | evBoardSetconf (conf : LgwConfBoard)
  | evRxrfSetconf (chain : Nat) (conf : LgwConfRxrf)
  | evTxgainSetconf (chain : Nat) (lut : LgwTxGainLut)
  | evResetStart
  | evLgwStart
  | evRegRead (idx : Nat)
  | evLgwStop
  | evResetStop
deriving DecidableEq

/-- Whether an event is a register read (`lgw_reg_r`). -/
def isEvRegRead : Event → Bool
  | Event.evRegRead _ => true
  | _ => false

/-- Whether an event is a TX-gain-table configuration call. -/
def isEvTxgain : Event → Bool
  | Event.evTxgainSetconf _ _ => true
  | _ => false

/-- The configuration sequence of lines 465-503: board config, RF-chain-0
config, RF-chain-1 config, and — only when some gain-table option set
`txlut.size` — the TX gain table for the selected chain.  The first failing
call returns immediately with its stage-identifying message; the trace lists
the calls actually made, the failed one included. -/
def configPhase (st : CliState) (hal : Hal) : Except (List Event × String) (List Event) :=
  let boardconf := mkBoardconf st
  if hal.lgw_board_setconf boardconf then
    let rf0 := mkRxrf0 st
    if hal.lgw_rxrf_setconf 0 rf0 then
      let rf1 := mkRxrf1 st
      if hal.lgw_rxrf_setconf 1 rf1 then
        let base := [Event.evBoardSetconf boardconf, Event.evRxrfSetconf 0 rf0,
                     Event.evRxrfSetconf 1 rf1]
        if st.txlut.size > 0 then
          if hal.lgw_txgain_setconf st.rf_chain st.txlut then
            Except.ok (base ++ [Event.evTxgainSetconf st.rf_chain st.txlut])
          else
            Except.error (base ++ [Event.evTxgainSetconf st.rf_chain st.txlut],
              "ERROR: failed to configure txgain lut")
        else Except.ok base
      else
        Except.error ([Event.evBoardSetconf boardconf, Event.evRxrfSetconf 0 rf0,
                       Event.evRxrfSetconf 1 rf1],
          "ERROR: failed to configure rxrf 1")
    else
      Except.error ([Event.evBoardSetconf boardconf, Event.evRxrfSetconf 0 rf0],
        "ERROR: failed to configure rxrf 0")
  else
    Except.error ([Event.evBoardSetconf boardconf], "ERROR: failed to configure board")

/-- Everything `main` prints and does after option parsing, summarized:
the external-call trace, the detail lines, the summary counters (printed only
when the readout loop was reached), the last error message if any, and the
process exit status. -/
structure RunResult where
  trace : List Event
  lines : List DetailLine
  summary : Option (Nat × Nat)
  err : Option String
  exit : Int
deriving DecidableEq

/-- Lines 427-557 of `main`: load the catalog, run the configuration phase,
reset and start the board, read out every catalogued register, print the
summary, then stop the HAL session and disable the board.  Each failure path
returns `EXIT_FAILURE` with its diagnostic; the full-success path returns 0.
`json_file` is the parse result of the catalog file as in `loadCatalog`. -/
def run_after_parse (st : CliState) (json_file : Option JsonValue) (hal : Hal) : RunResult :=
  match loadCatalog json_file with
  | Except.error msg => { trace := [], lines := [], summary := none, err := some msg, exit := 1 }
  | Except.ok reglist =>
    match configPhase st hal with
    | Except.error etm =>
      { trace := etm.1, lines := [], summary := none, err := some etm.2, exit := 1 }
    | Except.ok ctr =>
      if hal.reset_script_start then
        if hal.lgw_start then
          let pass := readoutPass hal.lgw_reg_r reglist
          let tr := ctr ++ [Event.evResetStart, Event.evLgwStart] ++
            pass.calls.map Event.evRegRead
          if hal.lgw_stop then
            if hal.reset_script_stop then
              { trace := tr ++ [Event.evLgwStop, Event.evResetStop]
                lines := pass.lines
                summary := some (pass.succeeded, pass.attempted)
                err := none
                exit := 0 }
            else
              { trace := tr ++ [Event.evLgwStop, Event.evResetStop]
                lines := pass.lines
                summary := some (pass.succeeded, pass.attempted)
                err := some "ERROR: failed to reset SX1302, check your reset_lgw.sh script"
                exit := 1 }
          else
            { trace := tr ++ [Event.evLgwStop]
              lines := pass.lines
              summary := some (pass.succeeded, pass.attempted)
              err := some "ERROR: failed to stop the gateway"
              exit := 1 }
        else
          { trace := ctr ++ [Event.evResetStart, Event.evLgwStart]
            lines := []
            summary := none
            err := some "ERROR: failed to start the gateway"
            exit := 1 }
      else
        { trace := ctr ++ [Event.evResetStart]
          lines := []
          summary := none
          err := some "ERROR: failed to reset SX1302, check your reset_lgw.sh script"
          exit := 1 }

/-- The whole of `main`: option parsing, then the post-parse run.  A parse
error exits with its (nonzero) status before the catalog is loaded and before
any external call (empty trace). -/
def main_run (opts : List Opt) (json_file : Option JsonValue) (hal : Hal) : RunResult :=
  match parseArgs opts with
  | Except.error e =>
    { trace := [], lines := [], summary := none, err := some e.msg, exit := e.code }
  | Except.ok st => run_after_parse st json_file hal

/-- The two volatile flags written by `sig_handler` (lines 60-61). -/
structure SigFlags where
  exit_sig : Bool
  quit_sig : Bool
deriving DecidableEq

/-- The signals for which `main` installs `sig_handler` (lines 460-462);
`sigOther` stands for any other delivered signal. -/
inductive Signal where
  | SIGQUIT
  | SIGINT
  | SIGTERM
  | sigOther
deriving DecidableEq

/-- `sig_handler`, lines 102-110: SIGQUIT sets `quit_sig`, SIGINT and SIGTERM
set `exit_sig`, anything else changes nothing. -/
def sig_handler (sigio : Signal) (flags : SigFlags) : SigFlags :=
  match sigio with
  | Signal.SIGQUIT => { flags with quit_sig := true }
  | Signal.SIGINT => { flags with exit_sig := true }
  | Signal.SIGTERM => { flags with exit_sig := true }
  | Signal.sigOther => flags

/-- The post-parse run with the signal-flag state made explicit.  Faithful to
the source: between lines 427 and 557 no statement of `main` reads `exit_sig`
or `quit_sig`, so the run is the same function of the remaining inputs
whatever value the flags hold at any point. -/
def run_with_signals (flags : SigFlags) (st : CliState) (json_file : Option JsonValue)
    (hal : Hal) : RunResult :=
  let _ := flags
  run_after_parse st json_file hal

/-- A HAL oracle whose configuration and lifecycle calls all succeed and whose
every register read fails; used to evaluate the model at concrete inputs. -/
def halAllFailReads : Hal :=
  { lgw_board_setconf := fun _ => true
    lgw_rxrf_setconf := fun _ _ => true
    lgw_txgain_setconf := fun _ _ => true
    reset_script_start := true
    lgw_start := true
    lgw_reg_r := fun _ => none
    lgw_stop := true
    reset_script_stop := true }

/-- A HAL oracle whose board-configuration call fails (everything else as in
`halAllFailReads`). -/
def halBoardFail : Hal :=
  { halAllFailReads with lgw_board_setconf := fun _ => false }

/-- A catalog document with a single fully populated register entry. -/
def catalogOne : JsonValue :=
  JsonValue.jobj [("sx1302_reglist", JsonValue.jarr [
    JsonValue.jobj [("name", JsonValue.jstr "REG_A"), ("index", JsonValue.jnum 5),
                    ("offset", JsonValue.jnum 0), ("length", JsonValue.jnum 8),
                    ("address", JsonValue.jstr "0x10")]])]

/-- The single entry of `catalogOne`. -/
def catalogOneEntry : JsonValue :=
  JsonValue.jobj [("name", JsonValue.jstr "REG_A"), ("index", JsonValue.jnum 5),
                  ("offset", JsonValue.jnum 0), ("length", JsonValue.jnum 8),
                  ("address", JsonValue.jstr "0x10")]

/-- A catalog document whose register array is empty. -/
def catalogEmpty : JsonValue :=
  JsonValue.jobj [("sx1302_reglist", JsonValue.jarr [])]

/-- The readout loop with explicit accumulators, in closed form: every entry
is read once in catalog order, the detail lines are the successful reads in
that order, and the counters add the successes resp. the length to the
accumulators. -/
theorem readoutLoop_spec (reg_r : Nat → Option Int) (l : List JsonValue) (i x : Nat) :
    readoutLoop reg_r l i x =
      { calls := l.map regIndex
        lines := l.filterMap (fun reg => (reg_r (regIndex reg)).map (mkDetail reg))
        succeeded := x + l.countP (fun reg => (reg_r (regIndex reg)).isSome)
        attempted := i + l.length } := by
  induction l generalizing i x with
  | nil => simp [readoutLoop]
  | cons reg rest ih =>
    cases h : reg_r (regIndex reg) with
    | none =>
      simp [readoutLoop, h, ih, List.countP_cons, PassResult.mk.injEq]
      omega
    | some v =>
      simp [readoutLoop, h, ih, List.countP_cons, PassResult.mk.injEq]
      omega

/-- Mapping register indices into read events yields only read events. -/
theorem countP_evRegRead_map (l : List Nat) :
    (l.map Event.evRegRead).countP isEvRegRead = l.length := by
  induction l with
  | nil => rfl
  | cons a t ih => simp [List.countP_cons, isEvRegRead, ih]

/-- Read events are never TX-gain events. -/
theorem countP_evTxgain_map_regRead (l : List Nat) :
    (l.map Event.evRegRead).countP isEvTxgain = 0 := by
  induction l with
  | nil => rfl
  | cons a t ih => simp [List.countP_cons, isEvTxgain, ih]

/-- The configuration phase when every requested call succeeds: board,
RF chain 0, RF chain 1, then the TX gain table exactly when some gain-table
option made `txlut.size` positive. -/
theorem configPhase_ok (st : CliState) (hal : Hal)
    (hb : hal.lgw_board_setconf (mkBoardconf st) = true)
    (h0 : hal.lgw_rxrf_setconf 0 (mkRxrf0 st) = true)
    (h1 : hal.lgw_rxrf_setconf 1 (mkRxrf1 st) = true)
    (htx : 0 < st.txlut.size → hal.lgw_txgain_setconf st.rf_chain st.txlut = true) :
    configPhase st hal = Except.ok
      ([Event.evBoardSetconf (mkBoardconf st), Event.evRxrfSetconf 0 (mkRxrf0 st),
        Event.evRxrfSetconf 1 (mkRxrf1 st)] ++
        (if 0 < st.txlut.size then [Event.evTxgainSetconf st.rf_chain st.txlut] else [])) := by
  by_cases hsz : 0 < st.txlut.size
  · simp [configPhase, hb, h0, h1, hsz, htx hsz]
  · simp [configPhase, hb, h0, h1, hsz]

/-- The run after a successful load, configuration and lifecycle: the trace in
program order, the readout lines, the summary counters, no error, exit 0. -/
theorem run_after_parse_ok (st : CliState) (json_file : Option JsonValue)
    (reglist : List JsonValue) (ctr : List Event) (hal : Hal)
    (hload : loadCatalog json_file = Except.ok reglist)
    (hcfg : configPhase st hal = Except.ok ctr)
    (hrs : hal.reset_script_start = true)
    (hst : hal.lgw_start = true)
    (hsp : hal.lgw_stop = true)
    (hrp : hal.reset_script_stop = true) :
    run_after_parse st json_file hal =
      { trace := ctr ++ [Event.evResetStart, Event.evLgwStart] ++
          (readoutPass hal.lgw_reg_r reglist).calls.map Event.evRegRead ++
          [Event.evLgwStop, Event.evResetStop]
        lines := (readoutPass hal.lgw_reg_r reglist).lines
        summary := some ((readoutPass hal.lgw_reg_r reglist).succeeded,
          (readoutPass hal.lgw_reg_r reglist).attempted)
        err := none
        exit := 0 } := by
  simp [run_after_parse, hload, hcfg, hrs, hst, hsp, hrp]

/-- Claim C1: for every catalog of N register entries, the readout pass calls
the HAL read once per entry in catalog order; each entry whose read succeeds
prints exactly one detail line carrying name, value, address, bit_offset,
bit_length in that order; entries whose read fails print nothing, so the
detail lines are the successful entries in catalog order with no reordering or
duplication; and the pass ends with the summary line
`<succeeded>/<attempted> Registers read` where attempted = N and succeeded is
the number of successful reads. -/
theorem readout_pass_catalog_order (reg_r : Nat → Option Int) (reglist : List JsonValue) :
    readoutPass reg_r reglist =
      { calls := reglist.map regIndex
        lines := reglist.filterMap (fun reg => (reg_r (regIndex reg)).map (mkDetail reg))
        succeeded := reglist.countP (fun reg => (reg_r (regIndex reg)).isSome)
        attempted := reglist.length } ∧
    renderSummary ((readoutPass reg_r reglist).succeeded, (readoutPass reg_r reglist).attempted) =
      toString (reglist.countP (fun reg => (reg_r (regIndex reg)).isSome)) ++ "/" ++
        toString reglist.length ++ " Registers read" := by
  have h := readoutLoop_spec reg_r reglist 0 0
  simp only [Nat.zero_add] at h
  constructor
  · simpa [readoutPass] using h
  · simp [readoutPass, h, renderSummary]

/-- Claim C9: a valid catalog with zero entries leads to a run that issues no
HAL register-read call, prints no detail line, and prints the summary line
`0/0 Registers read`. -/
theorem empty_catalog_run (st : CliState) (json_file : Option JsonValue) (hal : Hal)
    (hload : loadCatalog json_file = Except.ok [])
    (hb : hal.lgw_board_setconf (mkBoardconf st) = true)
    (h0 : hal.lgw_rxrf_setconf 0 (mkRxrf0 st) = true)
    (h1 : hal.lgw_rxrf_setconf 1 (mkRxrf1 st) = true)
    (htx : 0 < st.txlut.size → hal.lgw_txgain_setconf st.rf_chain st.txlut = true)
    (hrs : hal.reset_script_start = true)
    (hst : hal.lgw_start = true) :
    (run_after_parse st json_file hal).lines = [] ∧
    (run_after_parse st json_file hal).summary = some (0, 0) ∧
    (run_after_parse st json_file hal).trace.countP isEvRegRead = 0 ∧
    renderSummary (0, 0) = "0/0 Registers read" := by
  have hcfg := configPhase_ok st hal hb h0 h1 htx
  refine ⟨?_, ?_, ?_, rfl⟩ <;>
    (by_cases hsz : 0 < st.txlut.size <;>
      cases hsp : hal.lgw_stop <;>
      cases hrp : hal.reset_script_stop <;>
        simp [run_after_parse, hload, hcfg, hrs, hst, hsp, hrp, hsz, readoutPass, readoutLoop,
          List.countP_append, List.countP_cons, isEvRegRead])

/-- Witness for C9 at a concrete empty catalog and an all-success HAL. -/
theorem empty_catalog_run_witness :
    (run_after_parse initState (some catalogEmpty) halAllFailReads).lines = [] ∧
    (run_after_parse initState (some catalogEmpty) halAllFailReads).summary = some (0, 0) ∧
    (run_after_parse initState (some catalogEmpty) halAllFailReads).trace.countP isEvRegRead = 0 ∧
    renderSummary (0, 0) = "0/0 Registers read" :=
  empty_catalog_run initState (some catalogEmpty) halAllFailReads rfl rfl rfl rfl
    (fun h => absurd h (by decide)) rfl rfl

/-- Claim C5 counterexample: a catalog entry lacking both required fields
(`name` and `index`) does not make loading fail — the claim's
`CatalogMalformed` rejection does not exist in the code. -/
theorem catalog_entry_missing_fields_loads :
    loadCatalog (some (JsonValue.jobj [("sx1302_reglist",
        JsonValue.jarr [JsonValue.jobj [("offset", JsonValue.jnum 0)]])])) =
      Except.ok [JsonValue.jobj [("offset", JsonValue.jnum 0)]] := rfl

/-- Claim C5 (amended): loading fails, before any hardware interaction, when
the catalog file is absent/unreadable/not valid JSON (one combined diagnostic)
or when the top-level `sx1302_reglist` array is missing; the entries are not
validated at load time — any entry list whatsoever loads successfully, and
missing `name`/`index` fields only surface later through parson's defaults. -/
theorem load_catalog_no_entry_validation :
    (loadCatalog none = Except.error "ERROR: JSON registry file is corrupted") ∧
    (∀ entries : List JsonValue,
      loadCatalog (some (JsonValue.jobj [("sx1302_reglist", JsonValue.jarr entries)])) =
        Except.ok entries) ∧
    (∀ root : JsonValue,
      json_object_get_array (json_value_get_object root) "sx1302_reglist" = none →
      loadCatalog (some root) = Except.error "ERROR: JSON registry is not found") := by
  refine ⟨rfl, fun entries => rfl, fun root h => ?_⟩
  simp [loadCatalog, h]

/-- Witness for (amended) C5: a list with an empty-object entry loads, and a
non-object root fails with the registry-not-found diagnostic. -/
theorem load_catalog_no_entry_validation_witness :
    loadCatalog (some (JsonValue.jobj [("sx1302_reglist",
        JsonValue.jarr [JsonValue.jobj []])])) = Except.ok [JsonValue.jobj []] ∧
    loadCatalog (some (JsonValue.jnum 3)) =
      Except.error "ERROR: JSON registry is not found" :=
  ⟨load_catalog_no_entry_validation.2.1 [JsonValue.jobj []],
   load_catalog_no_entry_validation.2.2 (JsonValue.jnum 3) rfl⟩

/-- Claim C6 (divergence evidence): a `-o` value that does not parse as a
number at all is accepted.  The `-o` branch never tests the `sscanf` return
value, so the conversion failure leaves `arg_i` at its stale value — here 3,
deterministically written by a preceding `-p 3` — which passes the range check
and is silently stored as the frequency offset. -/
theorem opt_o_nonnumeric_accepted :
    (match parseArgs [Opt.p "3", Opt.o "xyz"] with
      | Except.ok st => some st.freq_offset
      | Except.error _ => none) = some 3 := rfl

/-- Claim C7 (divergence evidence): `sig_handler` records quit/interrupt/
terminate into the two flags, but no statement of `main` ever reads them, so
the run is identical whatever the flag state — no between-steps detection of a
termination signal exists. -/
theorem signals_never_detected (flags : SigFlags) (st : CliState)
    (json_file : Option JsonValue) (hal : Hal) :
    (sig_handler Signal.SIGTERM flags).exit_sig = true ∧
    (sig_handler Signal.SIGINT flags).exit_sig = true ∧
    (sig_handler Signal.SIGQUIT flags).quit_sig = true ∧
    run_with_signals flags st json_file hal =
      run_with_signals { exit_sig := false, quit_sig := false } st json_file hal :=
  ⟨rfl, rfl, rfl, rfl⟩

/-- Claim C2 (divergence evidence): the run is the same function whatever the
parsed `--format` value is — no JSON rendering path exists, so structured
output mode produces exactly the delimited output. -/
theorem format_selector_never_used (st : CliState) (v : String)
    (json_file : Option JsonValue) (hal : Hal) :
    run_after_parse { st with format := v } json_file hal =
      run_after_parse st json_file hal := rfl

/-- Claim C8 counterexample: the lowercase spelling `csv` is rejected with a
nonzero exit status, refuting case-insensitive acceptance. -/
theorem format_lowercase_rejected :
    parseArgs [Opt.format "csv"] =
      Except.error { msg := "ERROR: invalid format type (must be CSV or JSON)", code := 1 } := rfl

/-- Claim C8 (amended): `--format` accepts exactly the uppercase strings CSV
and JSON (after sscanf's token extraction); every other string — lowercase and
mixed-case spellings included — is rejected with a nonzero exit status. -/
theorem format_uppercase_only (s : String) :
    (parseArgs [Opt.format s]).isOk = true ↔
      (sscanf_token s = some "CSV" ∨ sscanf_token s = some "JSON") := by
  simp only [parseArgs, parseLoop, applyOpt]
  cases h : sscanf_token s with
  | none => simp [Except.isOk, Except.toBool]
  | some tok =>
    by_cases h1 : tok = "CSV"
    · simp [h1, Except.isOk, Except.toBool]
    · by_cases h2 : tok = "JSON"
      · simp [h1, h2, Except.isOk, Except.toBool]
      · simp [h1, h2, Except.isOk, Except.toBool]

/-- Claim C10: for every parsed command line, RF chain 0 is configured enabled
and TX-enabled (whatever `-c` said), RF chain 1 is never TX-enabled and is
enabled exactly when the selected TX chain or the clock source is 1, and both
chains receive the same frequency and radio type. -/
theorem rxrf_chain_invariants (opts : List Opt) (st : CliState)
    (hparse : parseArgs opts = Except.ok st) :
    (mkRxrf0 st).enable = true ∧ (mkRxrf0 st).tx_enable = true ∧
    (mkRxrf1 st).tx_enable = false ∧
    ((mkRxrf1 st).enable = true ↔ (st.rf_chain = 1 ∨ st.clocksource = 1)) ∧
    (mkRxrf0 st).freq_hz = (mkRxrf1 st).freq_hz ∧
    (mkRxrf0 st).type = (mkRxrf1 st).type := by
  refine ⟨rfl, rfl, rfl, ?_, rfl, rfl⟩
  simp [mkRxrf1]

/-- Witness for C10 at the empty command line. -/
theorem rxrf_chain_invariants_witness :
    (mkRxrf0 initState).enable = true ∧ (mkRxrf0 initState).tx_enable = true ∧
    (mkRxrf1 initState).tx_enable = false ∧
    ((mkRxrf1 initState).enable = true ↔
      (initState.rf_chain = 1 ∨ initState.clocksource = 1)) ∧
    (mkRxrf0 initState).freq_hz = (mkRxrf1 initState).freq_hz ∧
    (mkRxrf0 initState).type = (mkRxrf1 initState).type :=
  rxrf_chain_invariants [] initState rfl

/-- Claim C3: a failed register read is not fatal — the loop continues, so
every catalogued register is still attempted; the HAL stop and the hardware
disable run after the loop regardless of how many reads failed; and a run in
which every configuration and lifecycle call succeeds exits 0 whatever the
reads returned, even if none succeeded. -/
theorem per_register_failure_not_fatal (st : CliState) (json_file : Option JsonValue)
    (reglist : List JsonValue) (hal : Hal)
    (hload : loadCatalog json_file = Except.ok reglist)
    (hb : hal.lgw_board_setconf (mkBoardconf st) = true)
    (h0 : hal.lgw_rxrf_setconf 0 (mkRxrf0 st) = true)
    (h1 : hal.lgw_rxrf_setconf 1 (mkRxrf1 st) = true)
    (htx : 0 < st.txlut.size → hal.lgw_txgain_setconf st.rf_chain st.txlut = true)
    (hrs : hal.reset_script_start = true)
    (hst : hal.lgw_start = true)
    (hsp : hal.lgw_stop = true)
    (hrp : hal.reset_script_stop = true) :
    (run_after_parse st json_file hal).exit = 0 ∧
    Event.evLgwStop ∈ (run_after_parse st json_file hal).trace ∧
    Event.evResetStop ∈ (run_after_parse st json_file hal).trace ∧
    (run_after_parse st json_file hal).trace.countP isEvRegRead = reglist.length ∧
    (run_after_parse st json_file hal).summary =
      some (reglist.countP (fun reg => (hal.lgw_reg_r (regIndex reg)).isSome),
        reglist.length) := by
  have hcfg := configPhase_ok st hal hb h0 h1 htx
  have hrun := run_after_parse_ok st json_file reglist _ hal hload hcfg hrs hst hsp hrp
  rw [hrun]
  have hpass := readoutLoop_spec hal.lgw_reg_r reglist 0 0
  simp only [Nat.zero_add] at hpass
  refine ⟨rfl, by simp, by simp, ?_, by simp [readoutPass, hpass]⟩
  by_cases hsz : 0 < st.txlut.size <;>
    simp [hsz, List.countP_append, List.countP_cons, isEvRegRead, countP_evRegRead_map,
      readoutPass, hpass, List.length_map]

/-- Witness for C3: a one-entry catalog and a HAL whose every read fails still
exit 0 with stop and disable in the trace and a 0/1 summary. -/
theorem per_register_failure_not_fatal_witness :
    (run_after_parse initState (some catalogOne) halAllFailReads).exit = 0 ∧
    Event.evLgwStop ∈ (run_after_parse initState (some catalogOne) halAllFailReads).trace ∧
    Event.evResetStop ∈ (run_after_parse initState (some catalogOne) halAllFailReads).trace ∧
    (run_after_parse initState (some catalogOne) halAllFailReads).trace.countP isEvRegRead =
      ([catalogOneEntry] : List JsonValue).length ∧
    (run_after_parse initState (some catalogOne) halAllFailReads).summary =
      some (([catalogOneEntry] : List JsonValue).countP
          (fun reg => (halAllFailReads.lgw_reg_r (regIndex reg)).isSome),
        ([catalogOneEntry] : List JsonValue).length) :=
  per_register_failure_not_fatal initState (some catalogOne) [catalogOneEntry] halAllFailReads
    rfl rfl rfl rfl (fun h => absurd h (by decide)) rfl rfl rfl rfl

/-- Claim C4: the configuration entry points are called in the fixed order
board, RF chain 0, RF chain 1, then the TX gain table only when a gain-table
option set `txlut.size`; the first failing call ends the process with its
stage-identifying diagnostic and exit 1, with no hardware reset, no HAL start,
and no further configuration call; and when all configuration calls succeed
the hardware reset is the next external call after the configuration
sequence. -/
theorem config_failure_aborts (st : CliState) (json_file : Option JsonValue)
    (reglist : List JsonValue) (hal : Hal)
    (hload : loadCatalog json_file = Except.ok reglist) :
    (hal.lgw_board_setconf (mkBoardconf st) = false →
      run_after_parse st json_file hal =
        { trace := [Event.evBoardSetconf (mkBoardconf st)], lines := [], summary := none,
          err := some "ERROR: failed to configure board", exit := 1 }) ∧
    (hal.lgw_board_setconf (mkBoardconf st) = true →
      hal.lgw_rxrf_setconf 0 (mkRxrf0 st) = false →
      run_after_parse st json_file hal =
        { trace := [Event.evBoardSetconf (mkBoardconf st), Event.evRxrfSetconf 0 (mkRxrf0 st)],
          lines := [], summary := none, err := some "ERROR: failed to configure rxrf 0",
          exit := 1 }) ∧
    (hal.lgw_board_setconf (mkBoardconf st) = true →
      hal.lgw_rxrf_setconf 0 (mkRxrf0 st) = true →
      hal.lgw_rxrf_setconf 1 (mkRxrf1 st) = false →
      run_after_parse st json_file hal =
        { trace := [Event.evBoardSetconf (mkBoardconf st), Event.evRxrfSetconf 0 (mkRxrf0 st),
            Event.evRxrfSetconf 1 (mkRxrf1 st)],
          lines := [], summary := none, err := some "ERROR: failed to configure rxrf 1",
          exit := 1 }) ∧
    (hal.lgw_board_setconf (mkBoardconf st) = true →
      hal.lgw_rxrf_setconf 0 (mkRxrf0 st) = true →
      hal.lgw_rxrf_setconf 1 (mkRxrf1 st) = true →
      0 < st.txlut.size →
      hal.lgw_txgain_setconf st.rf_chain st.txlut = false →
      run_after_parse st json_file hal =
        { trace := [Event.evBoardSetconf (mkBoardconf st), Event.evRxrfSetconf 0 (mkRxrf0 st),
            Event.evRxrfSetconf 1 (mkRxrf1 st), Event.evTxgainSetconf st.rf_chain st.txlut],
          lines := [], summary := none, err := some "ERROR: failed to configure txgain lut",
          exit := 1 }) ∧
    (hal.lgw_board_setconf (mkBoardconf st) = true →
      hal.lgw_rxrf_setconf 0 (mkRxrf0 st) = true →
      hal.lgw_rxrf_setconf 1 (mkRxrf1 st) = true →
      (0 < st.txlut.size → hal.lgw_txgain_setconf st.rf_chain st.txlut = true) →
      ∃ rest, (run_after_parse st json_file hal).trace =
        ([Event.evBoardSetconf (mkBoardconf st), Event.evRxrfSetconf 0 (mkRxrf0 st),
          Event.evRxrfSetconf 1 (mkRxrf1 st)] ++
         (if 0 < st.txlut.size then [Event.evTxgainSetconf st.rf_chain st.txlut] else [])) ++
        Event.evResetStart :: rest) := by
  refine ⟨?_, ?_, ?_, ?_, ?_⟩
  · intro hb
    simp [run_after_parse, hload, configPhase, hb]
  · intro hb h0
    simp [run_after_parse, hload, configPhase, hb, h0]
  · intro hb h0 h1
    simp [run_after_parse, hload, configPhase, hb, h0, h1]
  · intro hb h0 h1 hsz htx
    simp [run_after_parse, hload, configPhase, hb, h0, h1, hsz, htx]
  · intro hb h0 h1 htx
    have hcfg := configPhase_ok st hal hb h0 h1 htx
    cases hrs : hal.reset_script_start with
    | false =>
      refine ⟨[], ?_⟩
      simp [run_after_parse, hload, hcfg, hrs]
    | true =>
      cases hst : hal.lgw_start with
      | false =>
        refine ⟨[Event.evLgwStart], ?_⟩
        simp [run_after_parse, hload, hcfg, hrs, hst]
      | true =>
        cases hsp : hal.lgw_stop with
        | false =>
          refine ⟨Event.evLgwStart ::
            ((readoutPass hal.lgw_reg_r reglist).calls.map Event.evRegRead ++
              [Event.evLgwStop]), ?_⟩
          simp [run_after_parse, hload, hcfg, hrs, hst, hsp]
        | true =>
          cases hrp : hal.reset_script_stop with
          | false =>
            refine ⟨Event.evLgwStart ::
              ((readoutPass hal.lgw_reg_r reglist).calls.map Event.evRegRead ++
                [Event.evLgwStop, Event.evResetStop]), ?_⟩
            simp [run_after_parse, hload, hcfg, hrs, hst, hsp, hrp]
          | true =>
            refine ⟨Event.evLgwStart ::
              ((readoutPass hal.lgw_reg_r reglist).calls.map Event.evRegRead ++
                [Event.evLgwStop, Event.evResetStop]), ?_⟩
            simp [run_after_parse, hload, hcfg, hrs, hst, hsp, hrp]

/-- Witness for C4: with a failing board-configuration call on a one-entry
catalog, each implication of the claim holds at the concrete input. -/
theorem config_failure_aborts_witness :
    (halBoardFail.lgw_board_setconf (mkBoardconf initState) = false →
      run_after_parse initState (some catalogOne) halBoardFail =
        { trace := [Event.evBoardSetconf (mkBoardconf initState)], lines := [], summary := none,
          err := some "ERROR: failed to configure board", exit := 1 }) ∧
    (halBoardFail.lgw_board_setconf (mkBoardconf initState) = true →
      halBoardFail.lgw_rxrf_setconf 0 (mkRxrf0 initState) = false →
      run_after_parse initState (some catalogOne) halBoardFail =
        { trace := [Event.evBoardSetconf (mkBoardconf initState),
            Event.evRxrfSetconf 0 (mkRxrf0 initState)],
          lines := [], summary := none, err := some "ERROR: failed to configure rxrf 0",
          exit := 1 }) ∧
    (halBoardFail.lgw_board_setconf (mkBoardconf initState) = true →
      halBoardFail.lgw_rxrf_setconf 0 (mkRxrf0 initState) = true →
      halBoardFail.lgw_rxrf_setconf 1 (mkRxrf1 initState) = false →
      run_after_parse initState (some catalogOne) halBoardFail =
        { trace := [Event.evBoardSetconf (mkBoardconf initState),
            Event.evRxrfSetconf 0 (mkRxrf0 initState),
            Event.evRxrfSetconf 1 (mkRxrf1 initState)],
          lines := [], summary := none, err := some "ERROR: failed to configure rxrf 1",
          exit := 1 }) ∧
    (halBoardFail.lgw_board_setconf (mkBoardconf initState) = true →
      halBoardFail.lgw_rxrf_setconf 0 (mkRxrf0 initState) = true →
      halBoardFail.lgw_rxrf_setconf 1 (mkRxrf1 initState) = true →
      0 < initState.txlut.size →
      halBoardFail.lgw_txgain_setconf initState.rf_chain initState.txlut = false →
      run_after_parse initState (some catalogOne) halBoardFail =
        { trace := [Event.evBoardSetconf (mkBoardconf initState),
            Event.evRxrfSetconf 0 (mkRxrf0 initState),
            Event.evRxrfSetconf 1 (mkRxrf1 initState),
            Event.evTxgainSetconf initState.rf_chain initState.txlut],
          lines := [], summary := none, err := some "ERROR: failed to configure txgain lut",
          exit := 1 }) ∧
    (halBoardFail.lgw_board_setconf (mkBoardconf initState) = true →
      halBoardFail.lgw_rxrf_setconf 0 (mkRxrf0 initState) = true →
      halBoardFail.lgw_rxrf_setconf 1 (mkRxrf1 initState) = true →
      (0 < initState.txlut.size →
        halBoardFail.lgw_txgain_setconf initState.rf_chain initState.txlut = true) →
      ∃ rest, (run_after_parse initState (some catalogOne) halBoardFail).trace =
        ([Event.evBoardSetconf (mkBoardconf initState),
          Event.evRxrfSetconf 0 (mkRxrf0 initState),
          Event.evRxrfSetconf 1 (mkRxrf1 initState)] ++
         (if 0 < initState.txlut.size then
           [Event.evTxgainSetconf initState.rf_chain initState.txlut] else [])) ++
        Event.evResetStart :: rest) :=
  config_failure_aborts initState (some catalogOne) [catalogOneEntry] halBoardFail rfl
